import Mathlib

/-!
# Verification of the streaming answer decoder of `src/frontend/app.py`

This file gives a shallow embedding of the stream-decoding logic of the
front end (`call_ai`, together with the input guards of
`handle_ai_question_streaming` and `handle_ai_question_non_streaming`),
and proves the specified properties about it.

Python string primitives used by the source (`startswith`, `strip`,
`replace(pat, "")`, `lower`) are embedded as functions on `String.data`
(lists of characters), matching Python's character-level semantics.
Exceptions raised by the transport while the decoder iterates are made
explicit: the transport delivers a list of `Chunk` items, each either a
text fragment or a raised exception carrying its message; the decoder is
then a total function from that list to the list of yielded events.
-/

namespace AISearch

/-- Python `s.startswith(p)`: `p`'s characters are a prefix of `s`'s. -/
def pyStartsWith (s p : String) : Bool :=
  p.data.isPrefixOf s.data

/-- Python `s.strip()`: drop whitespace characters from both ends. -/
def pyStrip (s : String) : String :=
  String.mk (((s.data.dropWhile Char.isWhitespace).reverse.dropWhile Char.isWhitespace).reverse)

/-- Left-to-right removal of every non-overlapping occurrence of `pat`,
structurally recursive on a fuel argument (the fuel is initialised to the
length of the scanned list, which the scan never exhausts). -/
def removeAllAux (pat : List Char) : Nat → List Char → List Char
  | _, [] => []
  | 0, rest => rest
  | fuel + 1, c :: cs =>
    if pat ≠ [] ∧ pat.isPrefixOf (c :: cs) then
      removeAllAux pat fuel (List.drop (pat.length - 1) cs)
    else
      c :: removeAllAux pat fuel cs

/-- Python `s.replace(pat, "")`: remove every occurrence of `pat` from `s`
(left to right, non-overlapping). For `pat = ""` Python returns `s`
unchanged, which the definition also does. -/
def pyReplaceEmpty (s pat : String) : String :=
  String.mk (removeAllAux pat.data s.data.length s.data)

/-- Python `s.lower()` (character-wise lowering). -/
def pyLower (s : String) : String :=
  String.mk (s.data.map Char.toLower)

/-- The events yielded by `call_ai` (`yield "<tag>", <payload>` in the
source): the tag names are kept. `text` carries the running accumulated
answer text, not just the newest delta. -/
inductive Event where
  | text (cumulative : String)
  | model (name : String)
  | truncated (msg : String)
  | error (msg : String)
deriving DecidableEq, Repr

/-- `true` exactly on `Event.error` (the spec's `Failed`). -/
def Event.isErr : Event → Bool
  | Event.error _ => true
  | _ => false

/-- `true` exactly on `Event.text` (the spec's `TextDelta`). -/
def Event.isText : Event → Bool
  | Event.text _ => true
  | _ => false

/-- One item produced by the transport iterator in streaming mode: either
a decoded text fragment, or an exception raised at that point of the
iteration (before any fragment, or between two fragments), carrying the
message `str(e)`. -/
inductive Chunk where
  | frag (s : String)
  | raise (msg : String)
deriving DecidableEq, Repr

/-- Streaming branch of `call_ai` (src/frontend/app.py lines 300-316 and
325-326). Each fragment is classified in the source's order: empty
fragments are skipped; a fragment starting with `__model_used__:` yields
a `model` event whose name is the fragment with every occurrence of the
marker removed (Python `replace`) and then stripped; a fragment starting
with `__error__` yields the fixed `error` event and breaks out of the
loop; a fragment starting with `__truncated__` yields a `truncated`
event; anything else is appended to `answer_text` and yields a `text`
event with the accumulated text. A raised exception is caught by the
surrounding `try` and yields a final `error` event. -/
def call_ai_stream (answer_text : String) : List Chunk → List Event
  | [] => []
  | Chunk.raise msg :: _ => [Event.error ("Request failed: " ++ msg)]
  | Chunk.frag chunk :: rest =>
    if chunk = "" then
      call_ai_stream answer_text rest
    else if pyStartsWith chunk "__model_used__:" then
      Event.model (pyStrip (pyReplaceEmpty chunk "__model_used__:")) ::
        call_ai_stream answer_text rest
    else if pyStartsWith chunk "__error__" then
      [Event.error "Request failed. Please try again later."]
    else if pyStartsWith chunk "__truncated__" then
      Event.truncated "AI response truncated due to token limit." ::
        call_ai_stream answer_text rest
    else
      Event.text (answer_text ++ chunk) :: call_ai_stream (answer_text ++ chunk) rest

/-- The JSON object returned by the non-streaming endpoint: both fields
may be absent (`data.get`). -/
structure AskResponse where
  answer : Option String
  finish_reason : Option String
deriving DecidableEq, Repr

/-- Non-streaming branch of `call_ai` (src/frontend/app.py lines 317-326).
The input is either the parsed response object, or the message of an
exception raised by the transport (connection failure, non-success
status, JSON decode failure — all of which occur before the first
`yield`). -/
def call_ai_non_stream : Except String AskResponse → List Event
  | Except.error msg => [Event.error ("Request failed: " ++ msg)]
  | Except.ok data =>
    Event.text (data.answer.getD "") ::
      (if data.finish_reason = some "length" then
        [Event.truncated "AI response truncated due to token limit."]
      else [])

/-- The request payload built by the two ask handlers (the JSON body sent
to the `ask`/`ask/stream` endpoint). `model` is absent when the
"Automatic Model Selection (Model Routing)" sentinel is chosen. -/
structure AskPayload where
  query_text : String
  feed_author : String
  feed_name : String
  limit : Int
  provider : String
  model : Option String
deriving DecidableEq, Repr

/-- What an ask handler does before any network activity: either it
short-circuits with a validation message (no payload is built, no HTTP
request is issued, `call_ai` is never invoked), or it builds the request
payload that it passes to `call_ai`. -/
inductive HandlerStart where
  | validation (msg : String)
  | request (payload : AskPayload)
deriving DecidableEq, Repr

/-- The payload constructed identically by both ask handlers
(src/frontend/app.py lines 440-449 and 501-510). -/
def buildAskPayload (query_text feed_name feed_author : String) (limit : Int)
    (provider model : String) : AskPayload :=
  { query_text := pyLower (pyStrip query_text)
    feed_author := if feed_author = "" then "" else pyStrip feed_author
    feed_name := if feed_name = "" then "" else pyStrip feed_name
    limit := limit
    provider := pyLower provider
    model := if model = "Automatic Model Selection (Model Routing)" then none else some model }

/-- Input validation and request construction of
`handle_ai_question_streaming` (src/frontend/app.py lines 432-449). -/
def handle_ai_question_streaming_start (query_text feed_name feed_author : String)
    (limit : Int) (provider model : String) : HandlerStart :=
  if pyStrip query_text = "" then
    HandlerStart.validation "Please enter a query text."
  else if provider = "" ∨ model = "" then
    HandlerStart.validation "Please select provider and model."
  else
    HandlerStart.request (buildAskPayload query_text feed_name feed_author limit provider model)

/-- Input validation and request construction of
`handle_ai_question_non_streaming` (src/frontend/app.py lines 495-510). -/
def handle_ai_question_non_streaming_start (query_text feed_name feed_author : String)
    (limit : Int) (provider model : String) : HandlerStart :=
  if pyStrip query_text = "" then
    HandlerStart.validation "Please enter a query text."
  else if provider = "" ∨ model = "" then
    HandlerStart.validation "Please select provider and model."
  else
    HandlerStart.request (buildAskPayload query_text feed_name feed_author limit provider model)

/-- Concatenation of a list of strings in order. -/
def concatStrings : List String → String
  | [] => ""
  | s :: rest => s ++ concatStrings rest

/-- The cumulative texts carried by the `text` events of an event list,
in order. -/
def textPayloads (l : List Event) : List String :=
  l.filterMap fun e =>
    match e with
    | Event.text s => some s
    | _ => none

/-- No event of any kind follows an `error` event. This also forces at
most one `error` event per list. -/
def errorsTerminal : List Event → Prop
  | [] => True
  | e :: rest => (e.isErr = true → rest = []) ∧ errorsTerminal rest

/-- `b`'s cumulative text extends `a`'s: `a` is a character prefix of `b`
and hence no longer than `b`. -/
def textExtends (a b : String) : Prop :=
  a.data <+: b.data ∧ a.data.length ≤ b.data.length

/-! ## Bridging lemmas for the Python string primitives -/

theorem pyStartsWith_iff {s p : String} :
    pyStartsWith s p = true ↔ p.data <+: s.data := by
  simp [pyStartsWith]

theorem pyStartsWith_ne_empty {s p : String} (h : pyStartsWith s p = true)
    (hp : p ≠ "") : s ≠ "" := by
  intro hs
  subst hs
  rw [pyStartsWith_iff] at h
  rw [List.prefix_nil] at h
  exact hp (String.ext h)

theorem pyStartsWith_excl {c : String} (p q : String)
    (h : pyStartsWith c p = true)
    (hpq : ¬ (p.data <+: q.data)) (hqp : ¬ (q.data <+: p.data)) :
    pyStartsWith c q = false := by
  rw [pyStartsWith_iff] at h
  cases hq : pyStartsWith c q with
  | false => rfl
  | true =>
    rw [pyStartsWith_iff] at hq
    rcases List.prefix_or_prefix_of_prefix h hq with h1 | h1
    · exact absurd h1 hpq
    · exact absurd h1 hqp

theorem pyStrip_whitespace_empty {s : String}
    (h : ∀ ch ∈ s.data, ch.isWhitespace = true) : pyStrip s = "" := by
  have hd : s.data.dropWhile Char.isWhitespace = [] :=
    List.dropWhile_eq_nil_iff.mpr h
  simp [pyStrip, hd]

/-! ## Claim theorems -/

/-- C2: a fragment beginning with `__error__` makes the streaming decoder
emit `Failed("Request failed. Please try again later.")` and terminate:
whatever items remain after it (`rest` is arbitrary) are never consumed
and no further events are emitted, regardless of the accumulated text so
far. -/
theorem c2_error_marker_terminates (acc c : String) (rest : List Chunk)
    (h : pyStartsWith c "__error__" = true) :
    call_ai_stream acc (Chunk.frag c :: rest) =
      [Event.error "Request failed. Please try again later."] := by
  have hne : c ≠ "" := pyStartsWith_ne_empty h (by decide)
  have hm : pyStartsWith c "__model_used__:" = false :=
    pyStartsWith_excl "__error__" "__model_used__:" h (by decide) (by decide)
  simp [call_ai_stream, hne, hm, h]

/-- Witness for C2 at the concrete input `["__error__", "more"]`. -/
theorem c2_error_marker_terminates_witness :
    pyStartsWith "__error__" "__error__" = true ∧
    call_ai_stream "partial" (Chunk.frag "__error__" :: [Chunk.frag "more"]) =
      [Event.error "Request failed. Please try again later."] :=
  ⟨by decide, c2_error_marker_terminates "partial" "__error__" [Chunk.frag "more"] (by decide)⟩

/-- C7: a fragment beginning with `__truncated__` makes the streaming
decoder emit `Truncated("AI response truncated due to token limit.")`,
leaves the accumulated text unchanged, and does not terminate: decoding
continues on the remaining items with the same accumulated text. -/
theorem c7_truncated_marker_continues (acc c : String) (rest : List Chunk)
    (h : pyStartsWith c "__truncated__" = true) :
    call_ai_stream acc (Chunk.frag c :: rest) =
      Event.truncated "AI response truncated due to token limit." ::
        call_ai_stream acc rest := by
  have hne : c ≠ "" := pyStartsWith_ne_empty h (by decide)
  have hm : pyStartsWith c "__model_used__:" = false :=
    pyStartsWith_excl "__truncated__" "__model_used__:" h (by decide) (by decide)
  have he : pyStartsWith c "__error__" = false :=
    pyStartsWith_excl "__truncated__" "__error__" h (by decide) (by decide)
  simp [call_ai_stream, hne, hm, he, h]

/-- Witness for C7 at the concrete input `["answer", "__truncated__", "tail"]`
(evaluated after one ordinary fragment, with a further fragment consumed
after the marker). -/
theorem c7_truncated_marker_continues_witness :
    pyStartsWith "__truncated__" "__truncated__" = true ∧
    call_ai_stream "answer" (Chunk.frag "__truncated__" :: [Chunk.frag "!"]) =
      Event.truncated "AI response truncated due to token limit." ::
        call_ai_stream "answer" [Chunk.frag "!"] :=
  ⟨by decide, c7_truncated_marker_continues "answer" "__truncated__" [Chunk.frag "!"] (by decide)⟩

/-- C4 (amended): a fragment beginning with `__model_used__:` makes the
streaming decoder emit `ModelSelected(name)` where `name` is the fragment
with every occurrence of `__model_used__:` removed (Python `replace`,
not just the leading prefix) and surrounding whitespace trimmed; the
accumulated text is unchanged and decoding continues. -/
theorem c4_model_marker (acc c : String) (rest : List Chunk)
    (h : pyStartsWith c "__model_used__:" = true) :
    call_ai_stream acc (Chunk.frag c :: rest) =
      Event.model (pyStrip (pyReplaceEmpty c "__model_used__:")) ::
        call_ai_stream acc rest := by
  have hne : c ≠ "" := pyStartsWith_ne_empty h (by decide)
  simp [call_ai_stream, hne, h]

/-- Witness for C4 at the concrete input `["__model_used__: gpt-x"]`. -/
theorem c4_model_marker_witness :
    pyStartsWith "__model_used__: gpt-x" "__model_used__:" = true ∧
    call_ai_stream "" [Chunk.frag "__model_used__: gpt-x"] =
      Event.model (pyStrip (pyReplaceEmpty "__model_used__: gpt-x" "__model_used__:")) ::
        call_ai_stream "" [] :=
  ⟨by decide, c4_model_marker "" "__model_used__: gpt-x" [] (by decide)⟩

/-- Counterexample to C4 as stated: on the fragment
`"__model_used__: a__model_used__:b"` the decoder emits
`ModelSelected("ab")` — the source removes every occurrence of the marker
with `str.replace` — whereas removing only the leading prefix and
trimming would give `"a__model_used__:b"`. -/
theorem c4_counterexample :
    call_ai_stream "" [Chunk.frag "__model_used__: a__model_used__:b"] =
      [Event.model "ab"] ∧
    ("ab" : String) ≠ "a__model_used__:b" := by
  constructor
  · decide
  · decide

/-- C6: in non-streaming mode, a response with `answer = a` yields exactly
one `TextDelta(a)`, followed by a `Truncated` event exactly when
`finish_reason` is `"length"`; any other `finish_reason` (for example
`"stop"`, or none) yields only the single `TextDelta`. -/
theorem c6_non_streaming_answer (a : String) (fr : Option String) :
    call_ai_non_stream (Except.ok (AskResponse.mk (some a) fr)) =
      (if fr = some "length" then
        [Event.text a, Event.truncated "AI response truncated due to token limit."]
      else
        [Event.text a]) := by
  by_cases h : fr = some "length" <;> simp [call_ai_non_stream, h]

/-- C10: in non-streaming mode, a response with the `answer` field absent
still yields exactly one `TextDelta` whose text is the empty string
(`data.get("answer", "")` substitutes `""`), and no `Failed` event, for
any `finish_reason`. -/
theorem c10_missing_answer_empty_text (fr : Option String) :
    (call_ai_non_stream (Except.ok (AskResponse.mk none fr))).head? =
        some (Event.text "") ∧
    (call_ai_non_stream (Except.ok (AskResponse.mk none fr))).countP Event.isText = 1 ∧
    (call_ai_non_stream (Except.ok (AskResponse.mk none fr))).countP Event.isErr = 0 := by
  by_cases h : fr = some "length" <;>
    simp [call_ai_non_stream, h, Event.isText, Event.isErr]

/-- Streaming decoding of a marker-free, nonempty fragment sequence,
generalised over the accumulated text: each fragment appends to the
accumulator and yields one `text` event with the running concatenation. -/
theorem stream_pure_text_aux (cs : List String) (acc : String)
    (hne : ∀ c ∈ cs, c ≠ "")
    (hm : ∀ c ∈ cs, pyStartsWith c "__model_used__:" = false)
    (he : ∀ c ∈ cs, pyStartsWith c "__error__" = false)
    (ht : ∀ c ∈ cs, pyStartsWith c "__truncated__" = false) :
    call_ai_stream acc (cs.map Chunk.frag) =
      (List.range cs.length).map
        (fun k => Event.text (acc ++ concatStrings (cs.take (k + 1)))) := by
  induction cs generalizing acc with
  | nil => rfl
  | cons c cs ih =>
    have h1 : c ≠ "" := hne c (List.mem_cons_self c cs)
    have h2 := hm c (List.mem_cons_self c cs)
    have h3 := he c (List.mem_cons_self c cs)
    have h4 := ht c (List.mem_cons_self c cs)
    have ihe := ih (acc ++ c)
      (fun x hx => hne x (List.mem_cons_of_mem c hx))
      (fun x hx => hm x (List.mem_cons_of_mem c hx))
      (fun x hx => he x (List.mem_cons_of_mem c hx))
      (fun x hx => ht x (List.mem_cons_of_mem c hx))
    simp only [List.map_cons, call_ai_stream]
    rw [if_neg h1]
    simp only [h2, h3, h4, Bool.false_eq_true, if_false]
    rw [ihe, List.length_cons, List.range_succ_eq_map]
    simp [List.map_map, Function.comp_def, concatStrings, String.append_assoc]

/-- C1: for every fragment sequence with no empty fragment and no
fragment beginning with `__model_used__:`, `__error__` or
`__truncated__`, the streaming decoder emits exactly `N` `TextDelta`
events for `N` input fragments, and the `k`-th one (0-based) carries the
concatenation of the first `k+1` fragments in input order. -/
theorem c1_pure_text_stream (cs : List String)
    (hne : ∀ c ∈ cs, c ≠ "")
    (hm : ∀ c ∈ cs, pyStartsWith c "__model_used__:" = false)
    (he : ∀ c ∈ cs, pyStartsWith c "__error__" = false)
    (ht : ∀ c ∈ cs, pyStartsWith c "__truncated__" = false) :
    call_ai_stream "" (cs.map Chunk.frag) =
      (List.range cs.length).map
        (fun k => Event.text (concatStrings (cs.take (k + 1)))) := by
  rw [stream_pure_text_aux cs "" hne hm he ht]
  simp

/-- Witness for C1 at the concrete input `["Hello ", "world"]`. -/
theorem c1_pure_text_stream_witness :
    (∀ c ∈ ["Hello ", "world"], c ≠ "") ∧
    call_ai_stream "" (["Hello ", "world"].map Chunk.frag) =
      (List.range (List.length ["Hello ", "world"])).map
        (fun k => Event.text (concatStrings (List.take (k + 1) ["Hello ", "world"]))) :=
  ⟨by decide,
   c1_pure_text_stream ["Hello ", "world"] (by decide) (by decide) (by decide) (by decide)⟩

/-- Transport exception after a run of fragments none of which begins
with `__error__`: the decoder first emits the events of those fragments,
then catches the exception and emits one final `error` event; items after
the exception are never consumed. -/
theorem stream_raise_aux (pre : List String) (acc msg : String) (tail : List Chunk)
    (he : ∀ c ∈ pre, pyStartsWith c "__error__" = false) :
    call_ai_stream acc (pre.map Chunk.frag ++ Chunk.raise msg :: tail) =
      call_ai_stream acc (pre.map Chunk.frag) ++
        [Event.error ("Request failed: " ++ msg)] := by
  induction pre generalizing acc with
  | nil => rfl
  | cons c pre ih =>
    have h3 := he c (List.mem_cons_self c pre)
    have ihe := fun acc => ih acc (fun x hx => he x (List.mem_cons_of_mem c hx))
    by_cases h1 : c = ""
    · simpa [call_ai_stream, h1] using ihe acc
    · by_cases h2 : pyStartsWith c "__model_used__:" = true
      · simpa [call_ai_stream, h1, h2] using ihe acc
      · by_cases h4 : pyStartsWith c "__truncated__" = true
        · simpa [call_ai_stream, h1, h2, h3, h4] using ihe acc
        · simpa [call_ai_stream, h1, h2, h3, h4] using ihe (acc ++ c)

/-- C3: an exception raised by the transport — before any fragment or
between fragments, in either mode — is caught by the decoder, which emits
a single terminal `Failed` event carrying `"Request failed: "` followed
by the exception's message; the decoder itself is a total function, so
nothing is raised past its boundary and the caller always receives this
well-formed terminal event. (The fragments consumed before the raise must
not begin with `__error__`, since that marker stops the iteration before
the exception can occur.) -/
theorem c3_transport_failure_caught (pre : List String) (msg : String) (tail : List Chunk)
    (he : ∀ c ∈ pre, pyStartsWith c "__error__" = false) :
    (call_ai_stream "" (pre.map Chunk.frag ++ Chunk.raise msg :: tail) =
      call_ai_stream "" (pre.map Chunk.frag) ++
        [Event.error ("Request failed: " ++ msg)]) ∧
    (call_ai_non_stream (Except.error msg) =
      [Event.error ("Request failed: " ++ msg)]) :=
  ⟨stream_raise_aux pre "" msg tail he, rfl⟩

/-- Witness for C3 at the concrete input: fragments `["partial"]`, then an
exception with message `"boom"`, then one more (never consumed) item. -/
theorem c3_transport_failure_caught_witness :
    (∀ c ∈ ["partial"], pyStartsWith c "__error__" = false) ∧
    ((call_ai_stream "" (["partial"].map Chunk.frag ++ Chunk.raise "boom" :: [Chunk.frag "x"]) =
      call_ai_stream "" (["partial"].map Chunk.frag) ++
        [Event.error ("Request failed: " ++ "boom")]) ∧
     (call_ai_non_stream (Except.error "boom") =
      [Event.error ("Request failed: " ++ "boom")])) :=
  ⟨by decide, c3_transport_failure_caught ["partial"] "boom" [Chunk.frag "x"] (by decide)⟩

/-- In streaming mode no event follows an `error` event, for every item
sequence and accumulator. -/
theorem errorsTerminal_stream (items : List Chunk) (acc : String) :
    errorsTerminal (call_ai_stream acc items) := by
  induction items generalizing acc with
  | nil => trivial
  | cons it rest ih =>
    cases it with
    | raise msg => exact ⟨fun _ => rfl, trivial⟩
    | frag c =>
      by_cases h1 : c = ""
      · simpa [call_ai_stream, h1] using ih acc
      · by_cases h2 : pyStartsWith c "__model_used__:" = true
        · simpa [call_ai_stream, h1, h2, errorsTerminal, Event.isErr] using ih acc
        · by_cases h3 : pyStartsWith c "__error__" = true
          · simp [call_ai_stream, h1, h2, h3, errorsTerminal, Event.isErr]
          · by_cases h4 : pyStartsWith c "__truncated__" = true
            · simpa [call_ai_stream, h1, h2, h3, h4, errorsTerminal, Event.isErr] using ih acc
            · simpa [call_ai_stream, h1, h2, h3, h4, errorsTerminal, Event.isErr]
                using ih (acc ++ c)

/-- In streaming mode at most one `error` event is ever emitted. -/
theorem countP_isErr_stream (items : List Chunk) (acc : String) :
    (call_ai_stream acc items).countP Event.isErr ≤ 1 := by
  induction items generalizing acc with
  | nil => simp [call_ai_stream]
  | cons it rest ih =>
    cases it with
    | raise msg => simp [call_ai_stream, List.countP_cons, Event.isErr]
    | frag c =>
      by_cases h1 : c = ""
      · simpa [call_ai_stream, h1] using ih acc
      · by_cases h2 : pyStartsWith c "__model_used__:" = true
        · simpa [call_ai_stream, h1, h2, List.countP_cons, Event.isErr] using ih acc
        · by_cases h3 : pyStartsWith c "__error__" = true
          · simp [call_ai_stream, h1, h2, h3, List.countP_cons, Event.isErr]
          · by_cases h4 : pyStartsWith c "__truncated__" = true
            · simpa [call_ai_stream, h1, h2, h3, h4, List.countP_cons, Event.isErr]
                using ih acc
            · simpa [call_ai_stream, h1, h2, h3, h4, List.countP_cons, Event.isErr]
                using ih (acc ++ c)

/-- C5: in both modes, every decode operation emits at most one `Failed`
event, and whenever a `Failed` event occurs nothing follows it — it is
the last event of the stream. -/
theorem c5_failed_unique_and_last :
    (∀ items : List Chunk,
      errorsTerminal (call_ai_stream "" items) ∧
      (call_ai_stream "" items).countP Event.isErr ≤ 1) ∧
    (∀ inp : Except String AskResponse,
      errorsTerminal (call_ai_non_stream inp) ∧
      (call_ai_non_stream inp).countP Event.isErr ≤ 1) := by
  refine ⟨fun items => ⟨errorsTerminal_stream items "", countP_isErr_stream items ""⟩,
    fun inp => ?_⟩
  cases inp with
  | error msg =>
    exact ⟨⟨fun _ => rfl, trivial⟩, by simp [call_ai_non_stream, List.countP_cons, Event.isErr]⟩
  | ok data =>
    by_cases h : data.finish_reason = some "length" <;>
      simp [call_ai_non_stream, h, errorsTerminal, Event.isErr, List.countP_cons]

/-- Every cumulative text emitted by the streaming decoder extends the
accumulator it started from. -/
theorem textPayloads_extend_acc (items : List Chunk) (acc : String) :
    ∀ s ∈ textPayloads (call_ai_stream acc items), acc.data <+: s.data := by
  induction items generalizing acc with
  | nil => simp [call_ai_stream, textPayloads]
  | cons it rest ih =>
    cases it with
    | raise msg => simp [call_ai_stream, textPayloads]
    | frag c =>
      by_cases h1 : c = ""
      · simpa [call_ai_stream, h1] using ih acc
      · by_cases h2 : pyStartsWith c "__model_used__:" = true
        · simpa [call_ai_stream, h1, h2, textPayloads] using ih acc
        · by_cases h3 : pyStartsWith c "__error__" = true
          · simp [call_ai_stream, h1, h2, h3, textPayloads]
          · by_cases h4 : pyStartsWith c "__truncated__" = true
            · simpa [call_ai_stream, h1, h2, h3, h4, textPayloads] using ih acc
            · intro s hs
              simp only [call_ai_stream, h1, h2, h3, h4, Bool.false_eq_true, if_false,
                if_neg h1, textPayloads, List.filterMap_cons] at hs
              rcases List.mem_cons.mp hs with hs | hs
              · subst hs
                exact (String.data_append acc c) ▸ List.prefix_append acc.data c.data
              · have hpre := ih (acc ++ c) s hs
                have : acc.data <+: (acc ++ c).data := by
                  rw [String.data_append]
                  exact List.prefix_append acc.data c.data
                exact this.trans hpre

/-- The cumulative texts of successive `text` events each extend the
previous one, for every item sequence and accumulator. -/
theorem chain_textPayloads (items : List Chunk) (acc : String) :
    List.Chain' textExtends (textPayloads (call_ai_stream acc items)) := by
  induction items generalizing acc with
  | nil => simp [call_ai_stream, textPayloads]
  | cons it rest ih =>
    cases it with
    | raise msg => simp [call_ai_stream, textPayloads]
    | frag c =>
      by_cases h1 : c = ""
      · simpa [call_ai_stream, h1] using ih acc
      · by_cases h2 : pyStartsWith c "__model_used__:" = true
        · simpa [call_ai_stream, h1, h2, textPayloads] using ih acc
        · by_cases h3 : pyStartsWith c "__error__" = true
          · simp [call_ai_stream, h1, h2, h3, textPayloads]
          · by_cases h4 : pyStartsWith c "__truncated__" = true
            · simpa [call_ai_stream, h1, h2, h3, h4, textPayloads] using ih acc
            · simp only [call_ai_stream, h1, h2, h3, h4, Bool.false_eq_true, if_false,
                if_neg h1, textPayloads, List.filterMap_cons]
              rw [List.chain'_cons']
              refine ⟨fun b hb => ?_, ih (acc ++ c)⟩
              have hmem : b ∈ textPayloads (call_ai_stream (acc ++ c) rest) :=
                List.mem_of_mem_head? hb
              have hpre := textPayloads_extend_acc rest (acc ++ c) b hmem
              exact ⟨hpre, hpre.length_le⟩

/-- C8: within one streaming decode operation the cumulative texts of the
successive `TextDelta` events form a chain in which each one is a prefix
of (extends) the next, so their lengths are monotonically non-decreasing:
text is only appended, never rewritten. -/
theorem c8_text_deltas_monotone (items : List Chunk) :
    List.Chain' textExtends (textPayloads (call_ai_stream "" items)) :=
  chain_textPayloads items ""

/-- C9: a blank or whitespace-only query makes both ask handlers
short-circuit with the validation message before any request is
constructed: the result is `HandlerStart.validation`, so no payload is
built, no HTTP call is made and `call_ai` is never invoked. -/
theorem c9_blank_query_short_circuits (qt fn fa : String) (limit : Int)
    (prov mdl : String) (h : ∀ ch ∈ qt.data, ch.isWhitespace = true) :
    handle_ai_question_streaming_start qt fn fa limit prov mdl =
      HandlerStart.validation "Please enter a query text." ∧
    handle_ai_question_non_streaming_start qt fn fa limit prov mdl =
      HandlerStart.validation "Please enter a query text." := by
  have hs := pyStrip_whitespace_empty h
  constructor <;>
    simp [handle_ai_question_streaming_start, handle_ai_question_non_streaming_start, hs]

/-- Witness for C9 at the concrete whitespace-only query `"  \t"`. -/
theorem c9_blank_query_short_circuits_witness :
    (∀ ch ∈ ("  \t" : String).data, ch.isWhitespace = true) ∧
    (handle_ai_question_streaming_start "  \t" "feed" "auth" 5 "openai" "gpt-x" =
      HandlerStart.validation "Please enter a query text." ∧
     handle_ai_question_non_streaming_start "  \t" "feed" "auth" 5 "openai" "gpt-x" =
      HandlerStart.validation "Please enter a query text.") :=
  ⟨by decide, c9_blank_query_short_circuits "  \t" "feed" "auth" 5 "openai" "gpt-x" (by decide)⟩

end AISearch
